import Mathlib

/-!
# Verification of the design-extractor server's signal-extraction engine

Shallow embedding of `src/server.js`: the in-browser extraction script
(color aggregation, logo resolution, typography, content digest), the
vibe-classifier stage, and the request handler's resource discipline.

JavaScript strings are modelled as `List Char` (`JStr`); JS `null`/absence is
modelled with `Option`; the weight map `colorCounts` (a JS object used as a
dictionary, insertion-ordered for non-numeric keys) is modelled as an
insertion-ordered association list.
-/

/-- JavaScript strings, modelled as lists of characters. -/
abbrev JStr := List Char

/-- Literal helper: a Lean string literal viewed as a `JStr`. -/
def js (s : String) : JStr := s.data

/-- ASCII lower-casing of one character, as `String.prototype.toLowerCase`
acts on the ASCII range (all inputs fed to it in the source are ASCII URLs,
class names and alt texts). -/
def jsLowerChar (c : Char) : Char :=
  if 'A' ≤ c ∧ c ≤ 'Z' then Char.ofNat (c.toNat + 32) else c

/-- ASCII upper-casing of one character, as `String.prototype.toUpperCase`
acts on the ASCII range (applied only to hex digits in the source). -/
def jsUpperChar (c : Char) : Char :=
  if 'a' ≤ c ∧ c ≤ 'z' then Char.ofNat (c.toNat - 32) else c

/-- `s.toLowerCase()`. -/
def jsToLower (s : JStr) : JStr := s.map jsLowerChar

/-- `s.toUpperCase()`. -/
def jsToUpper (s : JStr) : JStr := s.map jsUpperChar

/-- `s.includes(pat)`: substring containment (for nonempty `pat` used in the
source; the empty pattern is trivially contained). -/
def strContains : JStr → JStr → Bool
  | [], pat => pat.isEmpty
  | s@(_ :: rest), pat => pat.isPrefixOf s || strContains rest pat

/-- `s.split(sep)` for a one-character separator, as in
`fontFamily.split(',')`. -/
def jsSplitChar (sep : Char) : JStr → List JStr
  | [] => [[]]
  | c :: rest =>
    match jsSplitChar sep rest with
    | [] => []
    | seg :: segs => if c = sep then [] :: seg :: segs else (c :: seg) :: segs

/-- `s.replace(/['"]/g, '')`: delete every single- or double-quote
character. -/
def jsRemoveQuotes (s : JStr) : JStr :=
  s.filter (fun c => !(c = '\'' || c = '"'))

/-- Maximal runs of characters satisfying `keep`, accumulator-style; used for
`s.match(/\d+/g)` and for splitting a class attribute into class tokens. -/
def runsAux (keep : Char → Bool) : JStr → JStr → List JStr
  | cur, [] => if cur.isEmpty then [] else [cur.reverse]
  | cur, c :: rest =>
    if keep c then runsAux keep (c :: cur) rest
    else if cur.isEmpty then runsAux keep [] rest
    else cur.reverse :: runsAux keep [] rest

/-- `s.match(/\d+/g)`: the maximal runs of decimal digits in `s` (the empty
list standing for JS `null`). -/
def digitRuns (s : JStr) : List JStr := runsAux Char.isDigit [] s

/-- The whitespace-separated class tokens of a `class` attribute, as used by
CSS class selectors `.button` / `.btn`. -/
def classTokens (s : JStr) : List JStr := runsAux (fun c => !c.isWhitespace) [] s

/-- `parseInt` on a nonempty all-digit string. -/
def digitsToNat (s : JStr) : Nat :=
  s.foldl (fun n c => n * 10 + (c.toNat - 48)) 0

/-- One lowercase hexadecimal digit, as produced by `Number.toString(16)`. -/
def hexDigit (n : Nat) : Char :=
  if n < 10 then Char.ofNat (48 + n) else Char.ofNat (87 + n)

/-- Fuelled hexadecimal printer (structural recursion so that concrete
evaluation reduces in the kernel); `fuel` bounds the digit count. -/
def natToHexAux : Nat → Nat → JStr
  | 0, _ => []
  | fuel + 1, n =>
    if n < 16 then [hexDigit n]
    else natToHexAux fuel (n / 16) ++ [hexDigit (n % 16)]

/-- `n.toString(16)` for a nonnegative integer value. -/
def natToHex (n : Nat) : JStr := natToHexAux (n + 1) n

/-- `v.toString(16)` for a JS integer (negative values print as `-` followed
by the hex of the absolute value). -/
def intToHex (v : Int) : JStr :=
  if v < 0 then '-' :: natToHex v.natAbs else natToHex v.toNat

/-- Wrap an integer to an unsigned 32-bit value, as JS bitwise operators do
before operating. -/
def toUint32 (v : Int) : Int := v % (2 ^ 32 : Int)

/-- Wrap an integer to a signed 32-bit value (`ToInt32` of the JS spec). -/
def toInt32 (v : Int) : Int :=
  let m := toUint32 v
  if m < 2 ^ 31 then m else m - 2 ^ 32

/-- JS `a << k`: both wrap through `ToInt32`. -/
def jsShl (a : Int) (k : Nat) : Int := toInt32 (toInt32 a * 2 ^ k)

/--
`rgbToHex` from `src/server.js`:

```js
const rgbToHex = (rgb) => {
    if (!rgb) return null;
    if (rgb.startsWith('#')) return rgb;
    const result = rgb.match(/\d+/g);
    if (!result || result.length < 3) return null;
    return "#" + ((1 << 24) + (parseInt(result[0]) << 16) + (parseInt(result[1]) << 8)
                  + parseInt(result[2])).toString(16).slice(1).toUpperCase();
};
```

An empty string is falsy, hence `none`; a string starting with `#` is
returned verbatim; otherwise the first three digit runs are combined.
-/
def rgbToHex (rgb : JStr) : Option JStr :=
  if rgb.isEmpty then none
  else if rgb.headD ' ' = '#' then some rgb
  else
    let result := digitRuns rgb
    if result.length < 3 then none
    else
      let v : Int := (1 <<< 24 : Int) + jsShl (digitsToNat (result.getD 0 [])) 16
        + jsShl (digitsToNat (result.getD 1 [])) 8 + (digitsToNat (result.getD 2 []) : Int)
      some ('#' :: jsToUpper ((intToHex v).drop 1))

/-! ## The rendered-page tree

A read-only snapshot of the document: element structure, the attributes the
script reads, and the computed-style values `getComputedStyle` would report
(computed styles are always strings; an absent attribute reads as the empty
string, which is falsy in JS, matching every use in the source). `innerText`
and `outerHTML` are carried as snapshot values on each element, as the script
only ever reads them. -/

structure ElemData where
  tag : JStr := []
  className : JStr := []
  src : JStr := []
  alt : JStr := []
  href : JStr := []
  nameAttr : JStr := []
  propAttr : JStr := []
  relAttr : JStr := []
  content : JStr := []
  innerText : JStr := []
  outerHTML : JStr := []
  backgroundColor : JStr := []
  color : JStr := []
  fill : JStr := []
  stroke : JStr := []
  fontFamily : JStr := []
  deriving DecidableEq

mutual
inductive Element where
  | node (data : ElemData) (children : ElemList)

inductive ElemList where
  | nil
  | cons (e : Element) (es : ElemList)
end

def Element.data : Element → ElemData
  | .node d _ => d

def Element.children : Element → ElemList
  | .node _ cs => cs

def ElemList.ofList : List Element → ElemList
  | [] => .nil
  | e :: es => .cons e (ElemList.ofList es)

/-- Build an element from its data and a list of children. -/
def el (d : ElemData) (cs : List Element) : Element := .node d (ElemList.ofList cs)

mutual
/-- Pre-order (= document-order) collection of the elements of a subtree whose
data satisfies `p`, the subtree root included: `querySelectorAll` over one
root for a flat selector. -/
def Element.collectP (p : ElemData → Bool) : Element → List Element
  | .node d cs => (if p d then [Element.node d cs] else []) ++ ElemList.collectP p cs

def ElemList.collectP (p : ElemData → Bool) : ElemList → List Element
  | .nil => []
  | .cons e es => Element.collectP p e ++ ElemList.collectP p es
end

mutual
/-- Pre-order collection with an ancestor-context flag, threaded along the
path by `upd`; models descendant selectors such as `svg path` and
`header img`. -/
def Element.collectCtx (p : Bool → ElemData → Bool) (upd : Bool → ElemData → Bool)
    (fl : Bool) : Element → List Element
  | .node d cs =>
    (if p fl d then [Element.node d cs] else []) ++ ElemList.collectCtx p upd (upd fl d) cs

def ElemList.collectCtx (p : Bool → ElemData → Bool) (upd : Bool → ElemData → Bool)
    (fl : Bool) : ElemList → List Element
  | .nil => []
  | .cons e es => Element.collectCtx p upd fl e ++ ElemList.collectCtx p upd fl es
end

/-- The document: head-resident elements (`meta`/`link`), the `body` subtree,
and `window.location.origin`. -/
structure PageTree where
  headElems : List Element := []
  body : Element
  origin : JStr := []

def PageTree.roots (t : PageTree) : List Element := t.headElems ++ [t.body]

/-- `document.querySelectorAll` for a flat selector, in document order. -/
def docCollect (p : ElemData → Bool) (t : PageTree) : List Element :=
  t.roots.foldr (fun e acc => Element.collectP p e ++ acc) []

/-- `document.querySelector`: first match in document order, or null. -/
def findFirst (p : ElemData → Bool) (t : PageTree) : Option Element :=
  (docCollect p t).head?

/-! ## Color signal aggregation -/

/-- Accumulate-or-insert on the insertion-ordered weight map:
`colorCounts[hex] = (colorCounts[hex] || 0) + weight`. -/
def bump : List (JStr × Nat) → JStr → Nat → List (JStr × Nat)
  | [], k, w => [(k, w)]
  | (k', w') :: rest, k, w =>
    if k' = k then (k', w' + w) :: rest else (k', w') :: bump rest k w

/-- `addColor` from the source: convert; if the result is truthy and is none
of `#FFFFFF`, `#000000`, `#00000000`, accumulate `weight` onto it. -/
def addColor (counts : List (JStr × Nat)) (c : JStr) (w : Nat) : List (JStr × Nat) :=
  match rgbToHex c with
  | none => counts
  | some hex =>
    if hex ≠ [] ∧ hex ≠ js "#FFFFFF" ∧ hex ≠ js "#000000" ∧ hex ≠ js "#00000000" then
      bump counts hex w
    else counts

/-- Selector `button, a[class*="btn"], a[class*="button"]` used inside the
header/nav region. -/
def isRegionButton (d : ElemData) : Bool :=
  d.tag == js "button" ||
    (d.tag == js "a" && (strContains d.className (js "btn") || strContains d.className (js "button")))

/-- Match of `svg path, svg rect, svg circle, svg g, svg` given the flag that
an ancestor is an `svg`. -/
def svgSel (insideSvg : Bool) (d : ElemData) : Bool :=
  d.tag == js "svg" ||
    (insideSvg &&
      (d.tag == js "path" || d.tag == js "rect" || d.tag == js "circle" || d.tag == js "g"))

def svgUpd (insideSvg : Bool) (d : ElemData) : Bool := insideSvg || d.tag == js "svg"

/-- Selector `button, a[class*="btn"], .button, .btn` used document-wide
(class selectors match whole class tokens; `class*=` matches substrings). -/
def isDocButton (d : ElemData) : Bool :=
  d.tag == js "button" || (d.tag == js "a" && strContains d.className (js "btn"))
    || (classTokens d.className).contains (js "button")
    || (classTokens d.className).contains (js "btn")

def isThemeMeta (d : ElemData) : Bool := d.tag == js "meta" && d.nameAttr == js "theme-color"

def isHeaderTag (d : ElemData) : Bool := d.tag == js "header"

def isNavTag (d : ElemData) : Bool := d.tag == js "nav"

/-- `document.querySelector('header') || document.querySelector('nav')`. -/
def headerRegion (t : PageTree) : Option Element :=
  match findFirst isHeaderTag t with
  | some h => some h
  | none => findFirst isNavTag t

/-- `header.querySelectorAll('button, a[class*="btn"], a[class*="button"]')`:
proper descendants of the region element. -/
def regionButtons (h : Element) : List Element := ElemList.collectP isRegionButton h.children

/-- `header.querySelectorAll('svg path, svg rect, svg circle, svg g, svg')`. -/
def regionSvgParts (h : Element) : List Element :=
  ElemList.collectCtx svgSel svgUpd false h.children

/-- The `(color, weight)` arguments of the `addColor` calls made for one
header/nav interactive element: background at 10, then text color at 5 when
the background is fully transparent. -/
def buttonObs (e : Element) : List (JStr × Nat) :=
  (e.data.backgroundColor, 10) ::
    (if e.data.backgroundColor == js "rgba(0, 0, 0, 0)" then [(e.data.color, 5)] else [])

/-- The `addColor` calls for one header vector-graphics part: fill then
stroke, each at 8, when truthy and not `'none'`. -/
def svgObs (e : Element) : List (JStr × Nat) :=
  (if e.data.fill != [] && e.data.fill != js "none" then [(e.data.fill, 8)] else [])
    ++ (if e.data.stroke != [] && e.data.stroke != js "none" then [(e.data.stroke, 8)] else [])

/-- Pass A: declared theme color at weight 20. -/
def themeObs (t : PageTree) : List (JStr × Nat) :=
  match findFirst isThemeMeta t with
  | some m => [(m.data.content, 20)]
  | none => []

/-- Passes B and C over the resolved header/nav region. -/
def regionObs (h : Element) : List (JStr × Nat) :=
  (regionButtons h).flatMap buttonObs ++ (regionSvgParts h).flatMap svgObs

/-- Pass D: background of every document-wide interactive element at 3. -/
def docObs (t : PageTree) : List (JStr × Nat) :=
  (docCollect isDocButton t).map (fun e => (e.data.backgroundColor, 3))

/-- All `addColor` calls of the scan, in source order: theme color (A), header
interactive elements (B), header vector graphics (C), document-wide
interactive elements (D). -/
def colorObservations (t : PageTree) : List (JStr × Nat) :=
  themeObs t ++ (match headerRegion t with | some h => regionObs h | none => []) ++ docObs t

def buildCounts (obs : List (JStr × Nat)) : List (JStr × Nat) :=
  obs.foldl (fun acc cw => addColor acc cw.1 cw.2) []

/-- The accumulated weight map of the whole scan. -/
def colorCounts (t : PageTree) : List (JStr × Nat) := buildCounts (colorObservations t)

/-- Stable insertion into a weight-descending list: the inserted (earlier)
element goes before every later element of less-or-equal weight, matching the
stable `sort((a, b) => b[1] - a[1])` on insertion-ordered entries. -/
def insertDesc (x : JStr × Nat) : List (JStr × Nat) → List (JStr × Nat)
  | [] => [x]
  | y :: ys => if y.2 ≤ x.2 then x :: y :: ys else y :: insertDesc x ys

def sortDesc : List (JStr × Nat) → List (JStr × Nat)
  | [] => []
  | x :: xs => insertDesc x (sortDesc xs)

/-- `sortedColors`: keys by accumulated weight descending (stable), top 8. -/
def sortedColors (t : PageTree) : List JStr :=
  ((sortDesc (colorCounts t)).map Prod.fst).take 8

/-- `sortedColors[0] || '#000000'` (a missing entry — and an empty-string one
— is falsy). -/
def primaryColor (t : PageTree) : JStr :=
  let h := (sortedColors t).headD []
  if h = [] then js "#000000" else h

/-- `rgbToHex(getComputedStyle(document.body).backgroundColor)`. -/
def backgroundHex (t : PageTree) : Option JStr := rgbToHex t.body.data.backgroundColor

/-! ## Logo resolution -/

/-- Base64 alphabet character. -/
def base64Char (n : Nat) : Char :=
  if n < 26 then Char.ofNat (65 + n)
  else if n < 52 then Char.ofNat (97 + (n - 26))
  else if n < 62 then Char.ofNat (48 + (n - 52))
  else if n = 62 then '+'
  else '/'

/-- Base64-encode a byte sequence, three bytes at a time. -/
def base64Chunks : List Nat → JStr
  | [] => []
  | [a] =>
    let v := a * 65536
    [base64Char (v / 262144), base64Char (v / 4096 % 64), '=', '=']
  | [a, b] =>
    let v := a * 65536 + b * 256
    [base64Char (v / 262144), base64Char (v / 4096 % 64), base64Char (v / 64 % 64), '=']
  | a :: b :: c :: rest =>
    let v := a * 65536 + b * 256 + c
    base64Char (v / 262144) :: base64Char (v / 4096 % 64) :: base64Char (v / 64 % 64)
      :: base64Char (v % 64) :: base64Chunks rest

/-- `window.btoa`: base64 of the character codes (the source feeds it
serialized SVG markup). -/
def btoa (s : JStr) : JStr := base64Chunks (s.map Char.toNat)

/-- The `header img, nav img` candidates in document order. -/
def hdrNavImgs (t : PageTree) : List Element :=
  t.roots.foldr
    (fun e acc =>
      Element.collectCtx (fun fl d => fl && d.tag == js "img")
        (fun fl d => fl || d.tag == js "header" || d.tag == js "nav") false e ++ acc)
    []

/-- Strategy 1 predicate: class, src, or alt contains `logo`
(case-insensitive), each disjunct guarded by JS truthiness of the
attribute. -/
def hasLogoToken (d : ElemData) : Bool :=
  (!d.className.isEmpty && strContains (jsToLower d.className) (js "logo"))
    || (!d.src.isEmpty && strContains (jsToLower d.src) (js "logo"))
    || (!d.alt.isEmpty && strContains (jsToLower d.alt) (js "logo"))

/-- Strategy 1: first header/nav image carrying a `logo` token. -/
def findLogoImg (t : PageTree) : Option Element :=
  (hdrNavImgs t).find? (fun e => hasLogoToken e.data)

/-- `link.querySelector('svg')`. -/
def firstSvgIn (e : Element) : Option Element :=
  (ElemList.collectP (fun d => d.tag == js "svg") e.children).head?

/-- Strategy 2: the svg inside the first home link (`a[href="/"]` or
`a[href=origin]`) that contains one. -/
def homeLinkSvg (t : PageTree) : Option Element :=
  match (docCollect (fun d => d.tag == js "a" && (d.href == js "/" || d.href == t.origin)) t).find?
      (fun l => (firstSvgIn l).isSome) with
  | some link => firstSvgIn link
  | none => none

/-- Strategy 3 element: `meta[property="og:image"]`. -/
def ogImageMeta (t : PageTree) : Option Element :=
  findFirst (fun d => d.tag == js "meta" && d.propAttr == js "og:image") t

/-- Strategy 4 element: `link[rel="apple-touch-icon"]`. -/
def appleIconLink (t : PageTree) : Option Element :=
  findFirst (fun d => d.tag == js "link" && d.relAttr == js "apple-touch-icon") t

/-- JS falsiness of the `logoUrl` variable: null or the empty string. -/
def jsFalsyOpt : Option JStr → Bool
  | none => true
  | some s => s.isEmpty

/-- The data-URI encoding of an inline svg used by strategy 2. -/
def svgDataUri (svg : Element) : JStr :=
  js "data:image/svg+xml;base64," ++ btoa svg.data.outerHTML

/-- The logo fallback chain; each later strategy runs only while the current
`logoUrl` is falsy (`if (!logoUrl)`), and a strategy that finds nothing
leaves `logoUrl` unchanged. -/
def logoUrl (t : PageTree) : Option JStr :=
  let l1 : Option JStr :=
    match findLogoImg t with
    | some img => some img.data.src
    | none => none
  let l2 : Option JStr :=
    if jsFalsyOpt l1 then
      match homeLinkSvg t with
      | some svg => some (svgDataUri svg)
      | none => l1
    else l1
  let l3 : Option JStr :=
    if jsFalsyOpt l2 then
      match ogImageMeta t with
      | some m => some m.data.content
      | none => l2
    else l2
  if jsFalsyOpt l3 then
    match appleIconLink t with
    | some l => some l.data.href
    | none => l3
  else l3

/-! ## Typography and content digest -/

/-- `fontFamily.split(',')[0].replace(/['"]/g, '')`. -/
def firstFontToken (s : JStr) : JStr :=
  jsRemoveQuotes ((jsSplitChar ',' s).headD [])

def firstH1 (t : PageTree) : Option Element := findFirst (fun d => d.tag == js "h1") t

def bodyFn (t : PageTree) : JStr := firstFontToken t.body.data.fontFamily

def headingFn (t : PageTree) : JStr :=
  match firstH1 t with
  | some h => firstFontToken h.data.fontFamily
  | none => bodyFn t

/-- `h1 ? h1.innerText : ''`. -/
def heroText (t : PageTree) : JStr :=
  match firstH1 t with
  | some h => h.data.innerText
  | none => []

/-- `document.querySelector('meta[name="description"]')?.content || ''`. -/
def metaDesc (t : PageTree) : JStr :=
  match findFirst (fun d => d.tag == js "meta" && d.nameAttr == js "description") t with
  | some m => m.data.content
  | none => []

/-- `document.body.innerText.slice(0, 500)`. -/
def bodyTextExcerpt (t : PageTree) : JStr := t.body.data.innerText.take 500

/-- The labelled digest handed to the classifier. -/
def rawText (t : PageTree) : JStr :=
  js "Heading: " ++ heroText t ++ js "\nDescription: " ++ metaDesc t
    ++ js "\nContent: " ++ bodyTextExcerpt t

/-! ## Vibe classifier and request handler -/

inductive Backend where
  | google
  | openai
  deriving DecidableEq

/-- Outcome of invoking the selected backend, as observed after response
parsing: either a parsed JSON object (field/value pairs) or a thrown failure
carrying `e.message` (network error, or `JSON.parse` of an unparseable
response). -/
inductive BackendOutcome where
  | ok (fields : List (JStr × JStr))
  | fail (msg : JStr)

/-- The demo-mode sentinel returned when no API key is configured. -/
def demoVibe : List (JStr × JStr) :=
  [(js "tone", js "Demo Mode"), (js "audience", js "No API Key"),
   (js "vibe", js "Key missing. Check .env file and restart server.")]

/-- The failure-path sentinel built in the `catch` block. -/
def errorVibe (msg : JStr) : List (JStr × JStr) :=
  [(js "tone", js "Error"), (js "audience", js "Analysis Failed"),
   (js "vibe", js "Error: " ++ msg)]

/-- Which backend branch the `if/else if/else` executes (and hence which
backend is invoked, if any), given per-request credential presence. -/
def invokedBackend (googleKey openaiKey : Bool) : Option Backend :=
  if googleKey then some Backend.google
  else if openaiKey then some Backend.openai
  else none

/-- The vibe stage: branch on credential presence; a selected backend's
outcome is either its parsed response or, through the enclosing `catch`, the
failure sentinel; with no credentials the demo sentinel is returned (no
backend is invoked, so `out` is unread). The surrounding `try/catch` makes
the stage total: no exception escapes it. -/
def vibeAnalysis (googleKey openaiKey : Bool) (out : BackendOutcome) : List (JStr × JStr) :=
  if googleKey then
    match out with
    | .ok fields => fields
    | .fail msg => errorVibe msg
  else if openaiKey then
    match out with
    | .ok fields => fields
    | .fail msg => errorVibe msg
  else demoVibe

/-- The extraction payload returned by `page.evaluate`. -/
structure ExtractData where
  primary : JStr
  background : Option JStr
  palette : List JStr
  headings : JStr
  bodyFont : JStr
  logo : Option JStr
  raw : JStr
  deriving DecidableEq

def extractData (t : PageTree) : ExtractData :=
  { primary := primaryColor t
    background := backgroundHex t
    palette := sortedColors t
    headings := headingFn t
    bodyFont := bodyFn t
    logo := logoUrl t
    raw := rawText t }

/-- Environment of one request: whether browser launch, page navigation and
in-page evaluation succeed, and the page snapshot when they do. -/
structure RenderWorld where
  launchOk : Bool
  gotoOk : Bool
  evalOk : Bool
  tree : PageTree

inductive HttpResponse where
  | ok (data : ExtractData) (vibe : List (JStr × JStr))
  | clientError (msg : JStr)
  | serverError (msg : JStr)

/-- Result of one `/analyze` request, instrumented with whether the browser
resource was acquired and whether the `finally` block closed it. -/
structure AnalyzeResult where
  response : HttpResponse
  acquired : Bool
  released : Bool

/-- The `/analyze` handler: reject a falsy `url` with 400 before launching;
otherwise launch, navigate, evaluate and classify inside `try`, answer 500
from `catch` on a failure, and close the browser in `finally` whenever it was
assigned. -/
def analyzeHandler (url : Option JStr) (w : RenderWorld) (googleKey openaiKey : Bool)
    (out : BackendOutcome) : AnalyzeResult :=
  match url with
  | none =>
    { response := .clientError (js "URL is required"), acquired := false, released := false }
  | some u =>
    if u.isEmpty then
      { response := .clientError (js "URL is required"), acquired := false, released := false }
    else if !w.launchOk then
      { response := .serverError (js "Failed to analyze URL"), acquired := false, released := false }
    else if !w.gotoOk then
      { response := .serverError (js "Failed to analyze URL"), acquired := true, released := true }
    else if !w.evalOk then
      { response := .serverError (js "Failed to analyze URL"), acquired := true, released := true }
    else
      { response := .ok (extractData w.tree) (vibeAnalysis googleKey openaiKey out)
        acquired := true, released := true }

/-! ## Derived notions used in the statements -/

/-- The hex key `addColor` accumulates onto for a raw color `c`, if any:
conversion followed by the truthy / white / black / transparent-black
guard. -/
def processColor (c : JStr) : Option JStr :=
  match rgbToHex c with
  | none => none
  | some hex =>
    if hex ≠ [] ∧ hex ≠ js "#FFFFFF" ∧ hex ≠ js "#000000" ∧ hex ≠ js "#00000000" then some hex
    else none

/-- The accumulated weight of key `k` (0 when absent), reading the first
binding as JS property access does. -/
def weightOf : List (JStr × Nat) → JStr → Nat
  | [], _ => 0
  | (a, b) :: rest, k => if a = k then b else weightOf rest k

/-- Total weight an observation list contributes to key `k`. -/
def obsSum (k : JStr) : List (JStr × Nat) → Nat
  | [] => 0
  | (c, w) :: rest => (if processColor c = some k then w else 0) + obsSum k rest

/-- How many raw colors in a list convert to key `k`. -/
def countMatches (k : JStr) : List JStr → Nat
  | [] => 0
  | c :: cs => (if processColor c = some k then 1 else 0) + countMatches k cs

/-- Raw theme-color observations (zero or one). -/
def themeColors (t : PageTree) : List JStr :=
  match findFirst isThemeMeta t with
  | some m => [m.data.content]
  | none => []

/-- Backgrounds of the header/nav-region interactive elements. -/
def headerBtnBgs (t : PageTree) : List JStr :=
  match headerRegion t with
  | some h => (regionButtons h).map (fun e => e.data.backgroundColor)
  | none => []

/-- Text colors of the header/nav-region interactive elements whose
background is fully transparent. -/
def headerTransparentTexts (t : PageTree) : List JStr :=
  match headerRegion t with
  | some h =>
    ((regionButtons h).filter
      (fun e => e.data.backgroundColor == js "rgba(0, 0, 0, 0)")).map (fun e => e.data.color)
  | none => []

/-- Fill/stroke colors of one vector-graphics part that pass the
truthy-and-not-`'none'` guard (fill first, then stroke). -/
def svgColorsOf (e : Element) : List JStr :=
  (if e.data.fill != [] && e.data.fill != js "none" then [e.data.fill] else [])
    ++ (if e.data.stroke != [] && e.data.stroke != js "none" then [e.data.stroke] else [])

/-- All guarded fill/stroke colors of the header region's vector graphics. -/
def headerSvgColors (t : PageTree) : List JStr :=
  match headerRegion t with
  | some h => (regionSvgParts h).flatMap svgColorsOf
  | none => []

/-- Backgrounds of the document-wide interactive elements (pass D). -/
def docBtnBgs (t : PageTree) : List JStr :=
  (docCollect isDocButton t).map (fun e => e.data.backgroundColor)

def isUpperHexDigit (c : Char) : Bool :=
  ('0' ≤ c && c ≤ '9') || ('A' ≤ c && c ≤ 'F')

/-- A canonical palette color string: `#` followed by exactly six uppercase
hexadecimal digits. -/
def canonicalHex (s : JStr) : Bool :=
  s.length = 7 && s.headD ' ' = '#' && (s.drop 1).all isUpperHexDigit

/-! ## Concrete pages used by witnesses and counterexamples -/

/-- A header button with an opaque background: matched by the header pass
(weight 10) and again by the document-wide pass (weight 3). -/
def headerButtonPage : PageTree :=
  { body := el {} [el { tag := js "header" }
      [el { tag := js "button", backgroundColor := js "rgb(10, 20, 30)" } []]] }

/-- Theme color `#112233` plus a header svg filled `#445566` (the spec's own
end-to-end example). -/
def themedPage : PageTree :=
  { headElems := [el { tag := js "meta", nameAttr := js "theme-color",
                       content := js "#112233" } []]
    body := el {} [el { tag := js "header" }
      [el { tag := js "svg", fill := js "#445566" } []]] }

/-- A lowercase short-hex theme color, passed through conversion verbatim. -/
def lowercaseThemePage : PageTree :=
  { headElems := [el { tag := js "meta", nameAttr := js "theme-color",
                       content := js "#abc" } []]
    body := el {} [] }

/-- A header image that carries a `logo` class but an empty `src`, on a page
that also declares an `og:image`. -/
def emptySrcLogoPage : PageTree :=
  { headElems := [el { tag := js "meta", propAttr := js "og:image",
                       content := js "https://example.com/og.png" } []]
    body := el {} [el { tag := js "header" }
      [el { tag := js "img", className := js "logo" } []]] }

/-- A header logo image on a page where strategies 2, 3 and 4 would all
match as well. -/
def multiStrategyPage : PageTree :=
  { headElems := [el { tag := js "meta", propAttr := js "og:image",
                       content := js "https://example.com/og.png" } [],
                  el { tag := js "link", relAttr := js "apple-touch-icon",
                       href := js "https://example.com/touch.png" } []]
    body := el {} [el { tag := js "header" }
      [el { tag := js "img", className := js "brand-logo", src := js "/logo.svg" } [],
       el { tag := js "a", href := js "/" }
         [el { tag := js "svg", outerHTML := js "<svg/>" } []]]] }

/-- A page with both a `header` and a `nav`; the nav's button is scanned only
by the document-wide pass. -/
def headerAndNavPage : PageTree :=
  { body := el {} [el { tag := js "header" } [],
      el { tag := js "nav" }
        [el { tag := js "button", backgroundColor := js "rgb(1, 2, 3)" } []]] }

/-- A page with an `h1`, fonts, a description and body text. -/
def typoPage : PageTree :=
  { headElems := [el { tag := js "meta", nameAttr := js "description",
                       content := js "A demo page." } []]
    body := el { fontFamily := js "'Inter var', sans-serif",
                 innerText := js "Welcome text.",
                 backgroundColor := js "rgb(255, 255, 255)" }
      [el { tag := js "h1", fontFamily := js "\"Space Grotesk\", serif",
            innerText := js "Hello" } []] }

/-- A body-only page with no `h1`. -/
def noH1Page : PageTree :=
  { body := el { fontFamily := js "Arial, sans-serif", innerText := js "plain" } [] }

/-! ## Lemmas: the weight map -/

theorem addColor_eq (l : List (JStr × Nat)) (c : JStr) (w : Nat) :
    addColor l c w = (processColor c).elim l (fun h => bump l h w) := by
  unfold addColor processColor
  cases rgbToHex c with
  | none => rfl
  | some hex =>
    by_cases hg : hex ≠ [] ∧ hex ≠ js "#FFFFFF" ∧ hex ≠ js "#000000" ∧ hex ≠ js "#00000000"
    · simp [hg]
    · simp [hg]

theorem processColor_good (c h : JStr) (hp : processColor c = some h) :
    h ≠ [] ∧ h ≠ js "#FFFFFF" ∧ h ≠ js "#000000" ∧ h ≠ js "#00000000" := by
  unfold processColor at hp
  split at hp
  · exact absurd hp (by simp)
  · split at hp
    · rename_i hg
      cases hp
      exact hg
    · exact absurd hp (by simp)

theorem weightOf_bump (l : List (JStr × Nat)) (k a : JStr) (w : Nat) :
    weightOf (bump l k w) a = weightOf l a + (if k = a then w else 0) := by
  induction l with
  | nil => by_cases h : k = a <;> simp [bump, weightOf, h]
  | cons p rest ih =>
    obtain ⟨pk, pw⟩ := p
    by_cases h1 : pk = k
    · subst h1
      by_cases h2 : pk = a
      · subst h2
        simp [bump, weightOf]
      · simp [bump, weightOf, h2]
    · by_cases h2 : pk = a
      · subst h2
        have hk : ¬ pk = k := h1
        have hka : ¬ k = pk := fun he => h1 he.symm
        simp [bump, weightOf, hk, hka]
      · simp [bump, weightOf, h1, h2, ih]

theorem mem_keys_bump (l : List (JStr × Nat)) (k a : JStr) (w : Nat) :
    a ∈ (bump l k w).map Prod.fst ↔ a ∈ l.map Prod.fst ∨ a = k := by
  induction l with
  | nil => simp [bump]
  | cons p rest ih =>
    obtain ⟨pk, pw⟩ := p
    by_cases h : pk = k
    · subst h
      simp [bump]
      tauto
    · simp [bump, h, ih]
      tauto

theorem nodup_keys_bump (l : List (JStr × Nat)) (k : JStr) (w : Nat)
    (h : (l.map Prod.fst).Nodup) : ((bump l k w).map Prod.fst).Nodup := by
  induction l with
  | nil => simp [bump]
  | cons p rest ih =>
    obtain ⟨pk, pw⟩ := p
    rw [List.map_cons, List.nodup_cons] at h
    by_cases hk : pk = k
    · subst hk
      simpa [bump] using h
    · rw [show bump ((pk, pw) :: rest) k w = (pk, pw) :: bump rest k w from by simp [bump, hk]]
      rw [List.map_cons, List.nodup_cons]
      refine ⟨fun hm => ?_, ih h.2⟩
      rcases (mem_keys_bump rest k pk w).1 hm with hm | hm
      · exact h.1 hm
      · exact hk hm

theorem weightOf_addColor (l : List (JStr × Nat)) (c a : JStr) (w : Nat) :
    weightOf (addColor l c w) a = weightOf l a + (if processColor c = some a then w else 0) := by
  rw [addColor_eq]
  cases hp : processColor c with
  | none => simp
  | some h =>
    simp only [Option.elim, weightOf_bump]
    congr 1
    by_cases hha : h = a <;> simp [hha]

theorem weightOf_buildCounts_aux (obs acc : List (JStr × Nat)) (a : JStr) :
    weightOf (obs.foldl (fun l cw => addColor l cw.1 cw.2) acc) a
      = weightOf acc a + obsSum a obs := by
  induction obs generalizing acc with
  | nil => simp [obsSum]
  | cons cw rest ih =>
    obtain ⟨c, w⟩ := cw
    rw [List.foldl_cons, ih, weightOf_addColor]
    simp [obsSum]
    omega

/-- Accumulator correctness: the weight the scan assigns to a key is the sum
of the weights of the observations converting to it. -/
theorem weightOf_buildCounts (obs : List (JStr × Nat)) (a : JStr) :
    weightOf (buildCounts obs) a = obsSum a obs := by
  unfold buildCounts
  rw [weightOf_buildCounts_aux]
  simp [weightOf]

theorem keys_buildCounts_good (obs : List (JStr × Nat)) :
    ∀ a ∈ (buildCounts obs).map Prod.fst,
      a ≠ [] ∧ a ≠ js "#FFFFFF" ∧ a ≠ js "#000000" ∧ a ≠ js "#00000000" := by
  unfold buildCounts
  suffices h : ∀ acc : List (JStr × Nat),
      (∀ a ∈ acc.map Prod.fst,
        a ≠ [] ∧ a ≠ js "#FFFFFF" ∧ a ≠ js "#000000" ∧ a ≠ js "#00000000") →
      ∀ a ∈ ((obs.foldl (fun l cw => addColor l cw.1 cw.2) acc).map Prod.fst),
        a ≠ [] ∧ a ≠ js "#FFFFFF" ∧ a ≠ js "#000000" ∧ a ≠ js "#00000000" by
    exact h [] (by simp)
  induction obs with
  | nil => intro acc hacc; exact hacc
  | cons cw rest ih =>
    intro acc hacc
    rw [List.foldl_cons]
    apply ih
    intro a ha
    rw [addColor_eq] at ha
    cases hp : processColor cw.1 with
    | none => rw [hp] at ha; exact hacc a ha
    | some h =>
      rw [hp] at ha
      simp only [Option.elim] at ha
      rcases (mem_keys_bump acc h a cw.2).1 ha with hm | hm
      · exact hacc a hm
      · subst hm; exact processColor_good cw.1 a hp

theorem nodup_keys_buildCounts (obs : List (JStr × Nat)) :
    ((buildCounts obs).map Prod.fst).Nodup := by
  unfold buildCounts
  suffices h : ∀ acc : List (JStr × Nat), (acc.map Prod.fst).Nodup →
      ((obs.foldl (fun l cw => addColor l cw.1 cw.2) acc).map Prod.fst).Nodup by
    exact h [] (by simp)
  induction obs with
  | nil => intro acc hacc; exact hacc
  | cons cw rest ih =>
    intro acc hacc
    rw [List.foldl_cons]
    apply ih
    rw [addColor_eq]
    cases processColor cw.1 with
    | none => exact hacc
    | some h => exact nodup_keys_bump acc h cw.2 hacc

/-! ## Lemmas: the ranking sort -/

theorem perm_insertDesc (x : JStr × Nat) (l : List (JStr × Nat)) :
    List.Perm (insertDesc x l) (x :: l) := by
  induction l with
  | nil => exact List.Perm.refl _
  | cons y ys ih =>
    by_cases h : y.2 ≤ x.2
    · simp [insertDesc, h]
    · simp only [insertDesc, if_neg h]
      exact (ih.cons y).trans (List.Perm.swap x y ys)

theorem perm_sortDesc (l : List (JStr × Nat)) : List.Perm (sortDesc l) l := by
  induction l with
  | nil => exact List.Perm.refl _
  | cons x xs ih => exact (perm_insertDesc x (sortDesc xs)).trans (ih.cons x)

theorem pairwise_insertDesc (x : JStr × Nat) (l : List (JStr × Nat))
    (h : l.Pairwise (fun a b => b.2 ≤ a.2)) :
    (insertDesc x l).Pairwise (fun a b => b.2 ≤ a.2) := by
  induction l with
  | nil => simp [insertDesc]
  | cons y ys ih =>
    rcases List.pairwise_cons.1 h with ⟨hy, hys⟩
    by_cases hle : y.2 ≤ x.2
    · simp only [insertDesc, if_pos hle]
      refine List.Pairwise.cons ?_ h
      intro z hz
      rcases List.mem_cons.1 hz with rfl | hz
      · exact hle
      · exact le_trans (hy z hz) hle
    · simp only [insertDesc, if_neg hle]
      refine List.Pairwise.cons ?_ (ih hys)
      intro z hz
      rcases List.mem_cons.1 ((perm_insertDesc x ys).mem_iff.1 hz) with rfl | hz
      · omega
      · exact hy z hz

theorem pairwise_sortDesc (l : List (JStr × Nat)) :
    (sortDesc l).Pairwise (fun a b => b.2 ≤ a.2) := by
  induction l with
  | nil => simp [sortDesc]
  | cons x xs ih => exact pairwise_insertDesc x (sortDesc xs) ih

theorem sortDesc_head_max (l : List (JStr × Nat)) (p : JStr × Nat)
    (rest : List (JStr × Nat)) (h : sortDesc l = p :: rest) :
    ∀ q ∈ l, q.2 ≤ p.2 := by
  intro q hq
  have hq2 : q ∈ p :: rest := h ▸ (perm_sortDesc l).mem_iff.2 hq
  rcases List.mem_cons.1 hq2 with rfl | hq2
  · exact le_refl _
  · have hp := pairwise_sortDesc l
    rw [h] at hp
    exact (List.pairwise_cons.1 hp).1 q hq2

theorem weightOf_eq_of_mem (l : List (JStr × Nat)) (k : JStr) (w : Nat)
    (hnd : (l.map Prod.fst).Nodup) (hm : (k, w) ∈ l) : weightOf l k = w := by
  induction l with
  | nil => cases hm
  | cons p rest ih =>
    obtain ⟨pk, pw⟩ := p
    rw [List.map_cons, List.nodup_cons] at hnd
    rcases List.mem_cons.1 hm with he | hm2
    · cases he
      simp [weightOf]
    · have hk : k ∈ rest.map Prod.fst := List.mem_map.2 ⟨(k, w), hm2, rfl⟩
      have hne : ¬ pk = k := fun he => hnd.1 (by rw [he]; exact hk)
      simp [weightOf, hne]
      exact ih hnd.2 hm2

/-! ## Lemmas: decomposing the observation list -/

theorem obsSum_append (k : JStr) (l r : List (JStr × Nat)) :
    obsSum k (l ++ r) = obsSum k l + obsSum k r := by
  induction l with
  | nil => simp [obsSum]
  | cons p rest ih =>
    obtain ⟨c, w⟩ := p
    simp [obsSum, ih]
    omega

theorem obsSum_const_weight (k : JStr) (w : Nat) (cs : List JStr) :
    obsSum k (cs.map (fun c => (c, w))) = w * countMatches k cs := by
  induction cs with
  | nil => simp [obsSum, countMatches]
  | cons c rest ih =>
    simp [obsSum, countMatches, ih]
    by_cases h : processColor c = some k <;> simp [h] <;> ring

theorem obsSum_buttonObs (k : JStr) (es : List Element) :
    obsSum k (es.flatMap buttonObs)
      = 10 * countMatches k (es.map (fun e => e.data.backgroundColor))
        + 5 * countMatches k
            ((es.filter (fun e => e.data.backgroundColor == js "rgba(0, 0, 0, 0)")).map
              (fun e => e.data.color)) := by
  induction es with
  | nil => simp [obsSum, countMatches]
  | cons e rest ih =>
    rw [List.flatMap_cons, obsSum_append, ih]
    simp only [List.map_cons, List.filter_cons]
    by_cases ht : e.data.backgroundColor == js "rgba(0, 0, 0, 0)"
    · by_cases h1 : processColor e.data.backgroundColor = some k <;>
        by_cases h2 : processColor e.data.color = some k <;>
          simp [buttonObs, obsSum, countMatches, ht, h1, h2] <;> omega
    · by_cases h1 : processColor e.data.backgroundColor = some k <;>
        simp [buttonObs, obsSum, countMatches, ht, h1] <;> omega

theorem obsSum_svgObs (k : JStr) (es : List Element) :
    obsSum k (es.flatMap svgObs) = 8 * countMatches k (es.flatMap svgColorsOf) := by
  induction es with
  | nil => simp [obsSum, countMatches]
  | cons e rest ih =>
    rw [List.flatMap_cons, obsSum_append, List.flatMap_cons, ih]
    have hsvg : obsSum k (svgObs e) = 8 * countMatches k (svgColorsOf e) := by
      unfold svgObs svgColorsOf
      by_cases hf : e.data.fill != [] && e.data.fill != js "none" <;>
        by_cases hs : e.data.stroke != [] && e.data.stroke != js "none" <;>
          simp [hf, hs, obsSum, countMatches, obsSum_append] <;>
            by_cases h1 : processColor e.data.fill = some k <;>
              by_cases h2 : processColor e.data.stroke = some k <;> simp [h1, h2] <;> ring
    rw [hsvg]
    have : countMatches k (svgColorsOf e ++ rest.flatMap svgColorsOf)
        = countMatches k (svgColorsOf e) + countMatches k (rest.flatMap svgColorsOf) := by
      induction svgColorsOf e with
      | nil => simp [countMatches]
      | cons c cs ihc => simp [countMatches, ihc]; omega
    rw [this]
    ring

theorem countMatches_append (k : JStr) (l r : List JStr) :
    countMatches k (l ++ r) = countMatches k l + countMatches k r := by
  induction l with
  | nil => simp [countMatches]
  | cons c cs ih => simp [countMatches, ih]; omega

/-! ## Lemmas: hexadecimal printing -/

theorem natToHexAux_length (k : Nat) :
    ∀ n fuel, k + 1 ≤ fuel → 16 ^ k ≤ n → n < 16 ^ (k + 1) →
      (natToHexAux fuel n).length = k + 1 := by
  induction k with
  | zero =>
    intro n fuel hf h1 h2
    match fuel, hf with
    | f + 1, _ =>
      have hn : n < 16 := by simpa using h2
      simp [natToHexAux, hn]
  | succ k ih =>
    intro n fuel hf h1 h2
    match fuel, hf with
    | f + 1, hf =>
      have h16 : ¬ n < 16 := by
        have hle : (16 : Nat) ≤ 16 ^ (k + 1) :=
          Nat.le_self_pow (Nat.succ_ne_zero k) 16
        omega
      simp only [natToHexAux, if_neg h16, List.length_append, List.length_cons,
        List.length_nil]
      have hd1 : 16 ^ k ≤ n / 16 := by
        rw [Nat.le_div_iff_mul_le (by norm_num)]
        calc 16 ^ k * 16 = 16 ^ (k + 1) := by ring
          _ ≤ n := h1
      have hd2 : n / 16 < 16 ^ (k + 1) := by
        rw [Nat.div_lt_iff_lt_mul (by norm_num)]
        calc n < 16 ^ (k + 1 + 1) := h2
          _ = 16 ^ (k + 1) * 16 := by ring
      rw [ih (n / 16) f (by omega) hd1 hd2]

theorem hexDigit_upper_ok : ∀ m, m < 16 → isUpperHexDigit (jsUpperChar (hexDigit m)) = true := by
  decide

theorem natToHexAux_chars (fuel : Nat) :
    ∀ n, ∀ c ∈ natToHexAux fuel n, isUpperHexDigit (jsUpperChar c) = true := by
  induction fuel with
  | zero => intro n c hc; cases hc
  | succ f ih =>
    intro n c hc
    by_cases h : n < 16
    · simp [natToHexAux, h] at hc
      subst hc
      exact hexDigit_upper_ok n h
    · simp [natToHexAux, h] at hc
      rcases hc with hc | hc
      · exact ih (n / 16) c hc
      · subst hc
        exact hexDigit_upper_ok (n % 16) (Nat.mod_lt n (by norm_num))

/-! ## Lemmas: splitting -/

theorem jsSplitChar_ne_nil (sep : Char) (s : JStr) : jsSplitChar sep s ≠ [] := by
  induction s with
  | nil => simp [jsSplitChar]
  | cons c rest ih =>
    simp only [jsSplitChar]
    cases h : jsSplitChar sep rest with
    | nil => exact absurd h ih
    | cons seg segs => by_cases hc : c = sep <;> simp [hc]

theorem headD_jsSplitChar (sep : Char) (s : JStr) :
    (jsSplitChar sep s).headD [] = s.takeWhile (fun c => !(c = sep)) := by
  induction s with
  | nil => rfl
  | cons c rest ih =>
    simp only [jsSplitChar, List.takeWhile]
    cases h : jsSplitChar sep rest with
    | nil => exact absurd h (jsSplitChar_ne_nil sep rest)
    | cons seg segs =>
      by_cases hc : c = sep
      · simp [hc]
      · simp only [hc, if_neg hc, decide_not]
        rw [h] at ih
        simp only [List.headD] at ih
        simp [ih, hc]

/-! ## Claim theorems -/

/-- **C1** — For every PageTree, the palette produced by the color signal
aggregator satisfies: `entries` has length at most 8, contains no duplicate
hex values, and contains no occurrence of `#FFFFFF`, `#000000`, or
fully-transparent black (`#00000000`); and `primary` is the highest-weighted
entry, or `#000000` when `entries` is empty. -/
theorem C1_palette_invariants (t : PageTree) :
    (sortedColors t).length ≤ 8
  ∧ (sortedColors t).Nodup
  ∧ (∀ c ∈ sortedColors t, c ≠ js "#FFFFFF" ∧ c ≠ js "#000000" ∧ c ≠ js "#00000000")
  ∧ (sortedColors t = [] → primaryColor t = js "#000000")
  ∧ (∀ c rest, sortedColors t = c :: rest →
      primaryColor t = c ∧ ∀ q ∈ colorCounts t, q.2 ≤ weightOf (colorCounts t) c) := by
  have hnodupKeys : ((colorCounts t).map Prod.fst).Nodup :=
    nodup_keys_buildCounts (colorObservations t)
  have hperm : List.Perm ((sortDesc (colorCounts t)).map Prod.fst)
      ((colorCounts t).map Prod.fst) := (perm_sortDesc (colorCounts t)).map Prod.fst
  have hmemKeys : ∀ c ∈ sortedColors t, c ∈ (colorCounts t).map Prod.fst := by
    intro c hc
    exact hperm.mem_iff.1 (List.mem_of_mem_take hc)
  have hgood : ∀ c ∈ sortedColors t,
      c ≠ [] ∧ c ≠ js "#FFFFFF" ∧ c ≠ js "#000000" ∧ c ≠ js "#00000000" := by
    intro c hc
    exact keys_buildCounts_good (colorObservations t) c (hmemKeys c hc)
  refine ⟨List.length_take_le 8 _, ?_, ?_, ?_, ?_⟩
  · exact (List.take_sublist 8 _).nodup (hperm.nodup_iff.2 hnodupKeys)
  · intro c hc
    exact (hgood c hc).2
  · intro h
    simp [primaryColor, h]
  · intro c rest hcr
    cases hs : sortDesc (colorCounts t) with
    | nil =>
      rw [show sortedColors t = ((sortDesc (colorCounts t)).map Prod.fst).take 8 from rfl,
        hs] at hcr
      cases hcr
    | cons p rest2 =>
      have hmap : sortedColors t = p.1 :: ((rest2.map Prod.fst).take 7) := by
        rw [show sortedColors t = ((sortDesc (colorCounts t)).map Prod.fst).take 8 from rfl,
          hs]
        rfl
      have hcp : c = p.1 := by
        rw [hmap] at hcr
        exact ((List.cons.injEq _ _ _ _ ▸ hcr).1).symm
      have hcnil : c ≠ [] := (hgood c (by rw [hcr]; exact List.mem_cons_self c rest)).1
      constructor
      · simp [primaryColor, hcr, hcnil]
      · intro q hq
        have hpm : p ∈ colorCounts t :=
          (perm_sortDesc (colorCounts t)).mem_iff.1 (by rw [hs]; exact List.mem_cons_self p rest2)
        have hw : weightOf (colorCounts t) c = p.2 := by
          rw [hcp]
          exact weightOf_eq_of_mem _ _ _ hnodupKeys hpm
        rw [hw]
        exact sortDesc_head_max (colorCounts t) p rest2 hs q hq

/-- Witness for C1 at the spec's own end-to-end page: theme `#112233`
(weight 20) then header svg fill `#445566` (weight 8). -/
theorem C1_palette_invariants_witness :
    sortedColors themedPage = [js "#112233", js "#445566"]
  ∧ primaryColor themedPage = js "#112233"
  ∧ (sortedColors themedPage).Nodup := by
  refine ⟨by decide, ?_, (C1_palette_invariants themedPage).2.1⟩
  exact ((C1_palette_invariants themedPage).2.2.2.2 (js "#112233") [js "#445566"]
    (by decide)).1

/-- **C3 counterexample** — on a page whose only colored element is a header
button with background `rgb(10, 20, 30)`, the accumulated weight of
`#0A141E` is 13, not the 10 predicted by the claim's table (which grants the
document-wide weight 3 only to elements outside the header region): the
document-wide pass also matches the header button. -/
theorem C3_weight_table_cex :
    weightOf (colorCounts headerButtonPage) (js "#0A141E") = 13
  ∧ weightOf (colorCounts headerButtonPage) (js "#0A141E") ≠ 10 := by
  decide

/-- **C3 (amended)** — color weights follow the fixed additive table: a
declared theme color contributes 20; the background of each header-region
interactive element contributes 10; the text color of a header interactive
element contributes 5 exactly when its background is fully transparent; each
fill and each stroke of header vector graphics contributes 8 independently;
and the background of interactive elements anywhere in the document —
including those inside the header region — contributes a further 3, weights
for the same hex accumulating across all sources. -/
theorem C3_weight_table (t : PageTree) (k : JStr) :
    weightOf (colorCounts t) k
      = 20 * countMatches k (themeColors t)
        + 10 * countMatches k (headerBtnBgs t)
        + 5 * countMatches k (headerTransparentTexts t)
        + 8 * countMatches k (headerSvgColors t)
        + 3 * countMatches k (docBtnBgs t) := by
  rw [show colorCounts t = buildCounts (colorObservations t) from rfl, weightOf_buildCounts]
  unfold colorObservations
  rw [obsSum_append, obsSum_append]
  have htheme : obsSum k (themeObs t) = 20 * countMatches k (themeColors t) := by
    unfold themeObs themeColors
    cases findFirst isThemeMeta t with
    | none => simp [obsSum, countMatches]
    | some m =>
      by_cases h : processColor m.data.content = some k <;> simp [obsSum, countMatches, h]
  have hdoc : obsSum k (docObs t) = 3 * countMatches k (docBtnBgs t) := by
    unfold docObs docBtnBgs
    rw [← obsSum_const_weight k 3 _, List.map_map]
    rfl
  have hregion : obsSum k (match headerRegion t with | some h => regionObs h | none => [])
      = 10 * countMatches k (headerBtnBgs t) + 5 * countMatches k (headerTransparentTexts t)
        + 8 * countMatches k (headerSvgColors t) := by
    unfold headerBtnBgs headerTransparentTexts headerSvgColors
    cases headerRegion t with
    | none => simp [obsSum, countMatches]
    | some h =>
      unfold regionObs
      rw [obsSum_append, obsSum_buttonObs, obsSum_svgObs]
  rw [htheme, hdoc, hregion]
  ring

theorem toInt32_of_small (v : Int) (h0 : 0 ≤ v) (h1 : v < 2 ^ 31) : toInt32 v = v := by
  unfold toInt32 toUint32
  have hm : v % 2 ^ 32 = v := Int.emod_eq_of_lt h0 (by omega)
  simp only [hm]
  rw [if_pos h1]

theorem jsShl_small (a : Nat) (k : Nat) (h : (a : Int) * 2 ^ k < 2 ^ 31) :
    jsShl a k = (a : Int) * 2 ^ k := by
  have h0 : (0 : Int) ≤ (a : Int) := Int.natCast_nonneg a
  have hk0 : (0 : Int) < 2 ^ k := by positivity
  have hk1 : (1 : Int) ≤ 2 ^ k := by linarith [Int.add_one_le_iff.2 hk0]
  have ha31 : (a : Int) < 2 ^ 31 :=
    lt_of_le_of_lt (le_mul_of_one_le_right h0 hk1) h
  unfold jsShl
  rw [toInt32_of_small (a : Int) h0 ha31]
  exact toInt32_of_small _ (by positivity) h

theorem canonicalHex_rgb (r g b : Nat) (hr : r ≤ 255) (hg : g ≤ 255) (hb : b ≤ 255) :
    canonicalHex ('#' :: jsToUpper ((intToHex ((1 <<< 24 : Int) + jsShl r 16 + jsShl g 8
      + (b : Int))).drop 1)) = true := by
  have hr' : (r : Int) ≤ 255 := by exact_mod_cast hr
  have hg' : (g : Int) ≤ 255 := by exact_mod_cast hg
  have h16 : jsShl r 16 = (r : Int) * 65536 := by
    have := jsShl_small r 16 (by norm_num; linarith)
    simpa using this
  have h8 : jsShl g 8 = (g : Int) * 256 := by
    have := jsShl_small g 8 (by norm_num; linarith)
    simpa using this
  have hone : (1 <<< 24 : Int) = 16777216 := by decide
  have hv : (1 <<< 24 : Int) + jsShl r 16 + jsShl g 8 + (b : Int)
      = ((16777216 + r * 65536 + g * 256 + b : Nat) : Int) := by
    rw [hone, h16, h8]
    push_cast
    ring
  rw [hv]
  have hcast : intToHex ((16777216 + r * 65536 + g * 256 + b : Nat) : Int)
      = natToHex (16777216 + r * 65536 + g * 256 + b) := by
    unfold intToHex
    rw [if_neg (not_lt.2 (Int.natCast_nonneg _))]
    congr 1
  rw [hcast]
  set N : Nat := 16777216 + r * 65536 + g * 256 + b with hN
  have hlen : (natToHex N).length = 7 := by
    apply natToHexAux_length 6 N (N + 1)
    · omega
    · norm_num
      omega
    · norm_num
      omega
  have hchars : ∀ c ∈ natToHex N, isUpperHexDigit (jsUpperChar c) = true :=
    natToHexAux_chars (N + 1) N
  simp only [canonicalHex, jsToUpper, List.headD, List.drop, Bool.and_eq_true,
    decide_eq_true_eq, List.all_eq_true]
  refine ⟨⟨?_, trivial⟩, ?_⟩
  · simp [List.length_map, List.length_drop, hlen]
  · intro c hc
    rcases List.mem_map.1 hc with ⟨c0, hc0, rfl⟩
    exact hchars c0 (List.drop_subset 1 _ hc0)

/-- **C4 counterexample** — a theme color written as lowercase short hex
(`#abc`) is passed through conversion verbatim (`rgb.startsWith('#')` returns
the input unchanged) and becomes a palette candidate that is not a
6-hex-digit uppercase string. -/
theorem C4_conversion_cex :
    rgbToHex (js "#abc") = some (js "#abc")
  ∧ sortedColors lowercaseThemePage = [js "#abc"]
  ∧ canonicalHex (js "#abc") = false := by
  decide

/-- **C4 (amended)** — the conversion returns hex-form representations
verbatim (so they are not canonicalized); a representation from which fewer
than three numeric components parse yields no candidate (skip, not error);
and a non-hex representation whose first three numeric components are each at
most 255 (as produced by computed styles) yields a canonical 6-hex-digit
uppercase candidate. -/
theorem C4_conversion (s : JStr) :
    (∀ c cs, s = c :: cs → c = '#' → rgbToHex s = some s)
  ∧ (s ≠ [] → s.headD ' ' ≠ '#' → (digitRuns s).length < 3 → rgbToHex s = none)
  ∧ (∀ r g b rs, s.headD ' ' ≠ '#' → digitRuns s = r :: g :: b :: rs →
      digitsToNat r ≤ 255 → digitsToNat g ≤ 255 → digitsToNat b ≤ 255 →
      ∃ hex, rgbToHex s = some hex ∧ canonicalHex hex = true) := by
  refine ⟨?_, ?_, ?_⟩
  · intro c cs hs hc
    subst hs
    subst hc
    simp [rgbToHex, List.headD]
  · intro hne hhead hlen
    have hEmpty : s.isEmpty = false := by
      cases s with
      | nil => exact absurd rfl hne
      | cons a as => rfl
    unfold rgbToHex
    rw [hEmpty]
    simp only [Bool.false_eq_true, if_false, if_neg hhead]
    rw [if_pos hlen]
  · intro r g b rs hhead hruns hr hg hb
    have hne : s ≠ [] := by
      intro he
      rw [he] at hruns
      simp [digitRuns, runsAux] at hruns
    have hEmpty : s.isEmpty = false := by
      cases s with
      | nil => exact absurd rfl hne
      | cons a as => rfl
    refine ⟨_, ?_, canonicalHex_rgb (digitsToNat r) (digitsToNat g) (digitsToNat b) hr hg hb⟩
    unfold rgbToHex
    rw [hEmpty]
    simp only [Bool.false_eq_true, if_false, if_neg hhead, hruns]
    simp [List.getD]

/-- Witness for C4 at concrete inputs: a canonical conversion, a skip, and a
verbatim hex pass-through. -/
theorem C4_conversion_witness :
    (∃ hex, rgbToHex (js "rgb(255, 87, 51)") = some hex ∧ canonicalHex hex = true)
  ∧ rgbToHex (js "red") = none
  ∧ rgbToHex (js "#fff") = some (js "#fff") := by
  refine ⟨?_, ?_, ?_⟩
  · exact (C4_conversion (js "rgb(255, 87, 51)")).2.2 (js "255") (js "87") (js "51") []
      (by decide) (by decide) (by decide) (by decide) (by decide)
  · exact (C4_conversion (js "red")).2.1 (by decide) (by decide) (by decide)
  · exact (C4_conversion (js "#fff")).1 '#' (js "fff") rfl rfl

theorem svgDataUri_ne_nil (svg : Element) : svgDataUri svg ≠ [] := by
  unfold svgDataUri
  intro h
  rcases List.append_eq_nil.1 h with ⟨h1, _⟩
  exact absurd h1 (by decide)

/-- **C5 counterexample** — on a page whose header holds an image matching
strategy 1's `logo` token but whose resolved source locator is the empty
string, strategy 1's (non-null) result does not win: the `og:image` of
strategy 3 overrides it, because the chain is guarded by JS truthiness
(`if (!logoUrl)`), not null-ness. -/
theorem C5_logo_chain_cex :
    (findLogoImg emptySrcLogoPage).isSome = true
  ∧ (findLogoImg emptySrcLogoPage).map (fun e => e.data.src) = some []
  ∧ logoUrl emptySrcLogoPage = some (js "https://example.com/og.png") := by
  refine ⟨by decide, ?_, by decide⟩
  rfl

/-- **C5 (amended)** — the logo resolver tries its four strategies in strict
fixed order, and the first strategy producing a non-empty (truthy) string
wins, later strategies being skipped — in particular a strategy-1 match with
a non-empty source locator is never overridden; a strategy result that is
the empty string is treated as no result; and when no strategy matches, the
result is null, a valid outcome rather than a failure. -/
theorem C5_logo_chain (t : PageTree) :
    (∀ img, findLogoImg t = some img → img.data.src ≠ [] → logoUrl t = some img.data.src)
  ∧ (findLogoImg t = none → ∀ svg, homeLinkSvg t = some svg →
      logoUrl t = some (svgDataUri svg))
  ∧ (findLogoImg t = none → homeLinkSvg t = none → ∀ m, ogImageMeta t = some m →
      m.data.content ≠ [] → logoUrl t = some m.data.content)
  ∧ (findLogoImg t = none → homeLinkSvg t = none → ogImageMeta t = none →
      ∀ l, appleIconLink t = some l → logoUrl t = some l.data.href)
  ∧ (findLogoImg t = none → homeLinkSvg t = none → ogImageMeta t = none →
      appleIconLink t = none → logoUrl t = none) := by
  refine ⟨?_, ?_, ?_, ?_, ?_⟩
  · intro img h1 hsrc
    have hf : (some img.data.src).isSome = true := rfl
    simp [logoUrl, h1, jsFalsyOpt, List.isEmpty_iff, hsrc]
  · intro h1 svg h2
    simp [logoUrl, h1, h2, jsFalsyOpt, List.isEmpty_iff, svgDataUri_ne_nil svg]
  · intro h1 h2 m h3 hc
    simp [logoUrl, h1, h2, h3, jsFalsyOpt, List.isEmpty_iff, hc]
  · intro h1 h2 h3 l h4
    simp [logoUrl, h1, h2, h3, h4, jsFalsyOpt]
  · intro h1 h2 h3 h4
    simp [logoUrl, h1, h2, h3, h4, jsFalsyOpt]

/-- Witness for C5: on a page where all four strategies would match,
strategy 1 wins; on an empty page the result is null. -/
theorem C5_logo_chain_witness :
    logoUrl multiStrategyPage = some (js "/logo.svg")
  ∧ logoUrl { body := el {} [] } = none := by
  constructor
  · exact (C5_logo_chain multiStrategyPage).1
      (el { tag := js "img", className := js "brand-logo", src := js "/logo.svg" } [])
      rfl (by decide)
  · exact (C5_logo_chain { body := el {} [] }).2.2.2.2 rfl rfl rfl rfl

/-- **C8** — each typography identifier is obtained by taking the computed
font stack's substring before the first comma and stripping single or double
quote characters; and when the tree has no heading-level-1 element,
`Typography.heading` equals `Typography.body`. -/
theorem C8_typography (t : PageTree) :
    bodyFn t = jsRemoveQuotes (t.body.data.fontFamily.takeWhile (fun c => !(c = ',')))
  ∧ (firstH1 t = none → headingFn t = bodyFn t)
  ∧ (∀ h, firstH1 t = some h →
      headingFn t = jsRemoveQuotes (h.data.fontFamily.takeWhile (fun c => !(c = ',')))) := by
  refine ⟨?_, ?_, ?_⟩
  · unfold bodyFn firstFontToken
    rw [headD_jsSplitChar]
  · intro h
    unfold headingFn
    rw [h]
  · intro h1 hh
    simp only [headingFn, firstFontToken, hh]
    rw [headD_jsSplitChar]

/-- Witness for C8: the no-h1 fallback, and both identifiers on a concrete
page with quoted font stacks. -/
theorem C8_typography_witness :
    headingFn noH1Page = bodyFn noH1Page
  ∧ bodyFn typoPage = js "Inter var"
  ∧ headingFn typoPage = js "Space Grotesk" := by
  refine ⟨(C8_typography noH1Page).2.1 rfl, ?_, ?_⟩
  · rw [(C8_typography typoPage).1]
    decide
  · rw [(C8_typography typoPage).2.2
      (el { tag := js "h1", fontFamily := js "\"Space Grotesk\", serif",
            innerText := js "Hello" } []) rfl]
    decide

/-- **C9** — the content digest's heading and description default to the
empty string when the first h1 or the description metadata is absent; the
excerpt is the document's visible text truncated at a hard 500-character cap
(a prefix of it, and the identity on shorter texts); and rawText is the
fixed-format concatenation of labelled heading, description and content
lines. -/
theorem C9_content_digest (t : PageTree) :
    (firstH1 t = none → heroText t = [])
  ∧ (findFirst (fun d => d.tag == js "meta" && d.nameAttr == js "description") t = none →
      metaDesc t = [])
  ∧ (bodyTextExcerpt t).length ≤ 500
  ∧ (∃ tail, t.body.data.innerText = bodyTextExcerpt t ++ tail)
  ∧ (t.body.data.innerText.length ≤ 500 → bodyTextExcerpt t = t.body.data.innerText)
  ∧ rawText t = js "Heading: " ++ heroText t ++ js "\nDescription: " ++ metaDesc t
      ++ js "\nContent: " ++ bodyTextExcerpt t := by
  refine ⟨?_, ?_, ?_, ?_, ?_, rfl⟩
  · intro h
    unfold heroText
    rw [h]
  · intro h
    unfold metaDesc
    rw [h]
  · exact List.length_take_le 500 _
  · exact ⟨t.body.data.innerText.drop 500, (List.take_append_drop 500 _).symm⟩
  · intro h
    unfold bodyTextExcerpt
    exact List.take_of_length_le h

/-- Witness for C9: the digest of a concrete page, and the empty-string
defaults on an empty page. -/
theorem C9_content_digest_witness :
    rawText typoPage = js "Heading: Hello\nDescription: A demo page.\nContent: Welcome text."
  ∧ heroText { body := el {} [] } = []
  ∧ metaDesc { body := el {} [] } = [] := by
  refine ⟨by decide, (C9_content_digest { body := el {} [] }).1 rfl,
    (C9_content_digest { body := el {} [] }).2.1 rfl⟩

/-- **C10** — the header/navigation region scanned by the color aggregator is
exactly the first `header` element of the document when one exists, and
otherwise the first `nav` element: the observation list decomposes with the
region passes ranging over that element alone, so content living only inside
a `nav` while a `header` exists is reached only by the document-wide
weight-3 pass. -/
theorem C10_header_region (t : PageTree) :
    (∀ h, findFirst isHeaderTag t = some h →
      colorObservations t = themeObs t ++ regionObs h ++ docObs t)
  ∧ (findFirst isHeaderTag t = none → ∀ n, findFirst isNavTag t = some n →
      colorObservations t = themeObs t ++ regionObs n ++ docObs t)
  ∧ (findFirst isHeaderTag t = none → findFirst isNavTag t = none →
      colorObservations t = themeObs t ++ docObs t) := by
  refine ⟨?_, ?_, ?_⟩
  · intro h hh
    unfold colorObservations headerRegion
    rw [hh]
  · intro hh n hn
    unfold colorObservations headerRegion
    rw [hh, hn]
  · intro hh hn
    unfold colorObservations headerRegion
    rw [hh, hn]
    simp

/-- Witness for C10: with both a `header` and a `nav` present, the region is
the header, and the nav's button receives only the document-wide weight 3. -/
theorem C10_header_region_witness :
    colorObservations headerAndNavPage
      = themeObs headerAndNavPage ++ regionObs (el { tag := js "header" } [])
        ++ docObs headerAndNavPage
  ∧ colorCounts headerAndNavPage = [(js "#010203", 3)] := by
  exact ⟨(C10_header_region headerAndNavPage).1 (el { tag := js "header" } []) rfl, by decide⟩

/-- **C2 counterexample** — on the failure path the produced object's field
names are `tone`, `audience`, `vibe`: there is no `summary` field, so the
claimed fixed three-field shape `{ tone, audience, summary }` does not
hold. -/
theorem C2_vibe_cex :
    (vibeAnalysis true false (BackendOutcome.fail (js "boom"))).map Prod.fst
      ≠ [js "tone", js "audience", js "summary"]
  ∧ (vibeAnalysis true false (BackendOutcome.fail (js "boom"))).map Prod.fst
      = [js "tone", js "audience", js "vibe"] := by
  decide

/-- **C2 (amended)** — the vibe stage never propagates an exception past its
boundary (it is a total function of credential state and backend outcome);
on the demo and failure paths the result has the fixed three-field shape
`{ tone, audience, vibe }` — the message-bearing field is named `vibe`, not
`summary`; when the selected backend fails, `tone` and `audience` are the
fixed sentinels `Error` / `Analysis Failed` and the `vibe` field embeds the
failure's message text; on backend success the parsed response is returned
as-is; and the overall request still succeeds. -/
theorem C2_vibe_failure (g o : Bool) (msg : JStr) (w : RenderWorld) (u : JStr)
    (fields : List (JStr × JStr)) :
    ((g || o) = true → vibeAnalysis g o (BackendOutcome.fail msg) = errorVibe msg)
  ∧ (vibeAnalysis g o (BackendOutcome.fail msg)).map Prod.fst
      = [js "tone", js "audience", js "vibe"]
  ∧ ((g || o) = true →
      (js "tone", js "Error") ∈ vibeAnalysis g o (BackendOutcome.fail msg)
      ∧ (js "audience", js "Analysis Failed") ∈ vibeAnalysis g o (BackendOutcome.fail msg)
      ∧ (js "vibe", js "Error: " ++ msg) ∈ vibeAnalysis g o (BackendOutcome.fail msg))
  ∧ ((g || o) = true → vibeAnalysis g o (BackendOutcome.ok fields) = fields)
  ∧ (u ≠ [] → w.launchOk = true → w.gotoOk = true → w.evalOk = true →
      analyzeHandler (some u) w g o (BackendOutcome.fail msg)
        = { response := HttpResponse.ok (extractData w.tree)
              (vibeAnalysis g o (BackendOutcome.fail msg)),
            acquired := true, released := true }) := by
  refine ⟨?_, ?_, ?_, ?_, ?_⟩
  · intro h
    cases g <;> cases o <;> simp_all [vibeAnalysis]
  · cases g <;> cases o <;> simp [vibeAnalysis, errorVibe, demoVibe]
  · intro h
    cases g <;> cases o <;> simp_all [vibeAnalysis, errorVibe]
  · intro h
    cases g <;> cases o <;> simp_all [vibeAnalysis]
  · intro hu hl hg he
    have hEmpty : u.isEmpty = false := by
      cases u with
      | nil => exact absurd rfl hu
      | cons a as => rfl
    simp [analyzeHandler, hEmpty, hl, hg, he]

/-- Witness for C2 at concrete inputs: Google key present, backend failure
`boom`; the request still answers 200 with the error-sentinel vibe. -/
theorem C2_vibe_failure_witness :
    vibeAnalysis true false (BackendOutcome.fail (js "boom")) = errorVibe (js "boom")
  ∧ (analyzeHandler (some (js "https://example.com"))
      { launchOk := true, gotoOk := true, evalOk := true, tree := typoPage }
      true false (BackendOutcome.fail (js "boom"))).response
      = HttpResponse.ok (extractData typoPage) (errorVibe (js "boom")) := by
  have h := C2_vibe_failure true false (js "boom")
    { launchOk := true, gotoOk := true, evalOk := true, tree := typoPage }
    (js "https://example.com") []
  refine ⟨h.1 rfl, ?_⟩
  rw [h.2.2.2.2 (by decide) rfl rfl rfl, h.1 rfl]

/-- **C6** — backend selection is a fixed-priority, per-request three-way
choice on credential presence: with the primary (Google) key present,
backend A is chosen and backend B (OpenAI) is never invoked; with neither
key, the demo-mode sentinels are returned and no backend is invoked; and at
most one backend is ever invoked per request. -/
theorem C6_backend_selection (g o : Bool) (out : BackendOutcome) :
    (g = true → invokedBackend g o = some Backend.google
      ∧ invokedBackend g o ≠ some Backend.openai)
  ∧ (g = false → o = false → invokedBackend g o = none
      ∧ vibeAnalysis g o out = demoVibe)
  ∧ (∀ b1 b2, invokedBackend g o = some b1 → invokedBackend g o = some b2 → b1 = b2) := by
  refine ⟨?_, ?_, ?_⟩
  · intro hg
    subst hg
    simp [invokedBackend]
  · intro hg ho
    subst hg
    subst ho
    simp [invokedBackend, vibeAnalysis]
  · intro b1 b2 h1 h2
    rw [h1] at h2
    exact Option.some.inj h2

/-- Witness for C6: both keys present picks Google; no keys yields the demo
sentinels with no backend invoked. -/
theorem C6_backend_selection_witness :
    invokedBackend true true = some Backend.google
  ∧ invokedBackend true true ≠ some Backend.openai
  ∧ invokedBackend false false = none
  ∧ vibeAnalysis false false (BackendOutcome.ok []) = demoVibe := by
  have h1 := C6_backend_selection true true (BackendOutcome.ok [])
  have h2 := C6_backend_selection false false (BackendOutcome.ok [])
  exact ⟨(h1.1 rfl).1, (h1.1 rfl).2, (h2.2.1 rfl rfl).1, (h2.2.1 rfl rfl).2⟩

/-- **C7** — the rendering resource is released on every exit path on which
it was acquired — success, extraction failure, classification failure (which
never reaches the error path at all), or page-load failure — and a request
with a missing target locator is rejected as a client error before any
rendering resource is acquired. -/
theorem C7_resource_discipline (url : Option JStr) (w : RenderWorld) (g o : Bool)
    (out : BackendOutcome) :
    ((analyzeHandler url w g o out).acquired = true →
      (analyzeHandler url w g o out).released = true)
  ∧ (url = none →
      analyzeHandler url w g o out
        = { response := HttpResponse.clientError (js "URL is required"),
            acquired := false, released := false }) := by
  constructor
  · intro hacq
    cases url with
    | none => simp [analyzeHandler] at hacq
    | some u =>
      by_cases hu : u.isEmpty <;> by_cases hl : w.launchOk <;> by_cases hg : w.gotoOk <;>
        by_cases he : w.evalOk <;> simp_all [analyzeHandler]
  · intro h
    subst h
    rfl

/-- Witness for C7: a missing locator is rejected with nothing acquired; a
page-load failure still releases the browser. -/
theorem C7_resource_discipline_witness :
    analyzeHandler none { launchOk := true, gotoOk := true, evalOk := true, tree := typoPage }
      true false (BackendOutcome.ok [])
      = { response := HttpResponse.clientError (js "URL is required"),
          acquired := false, released := false }
  ∧ (analyzeHandler (some (js "https://example.com"))
      { launchOk := true, gotoOk := false, evalOk := true, tree := typoPage }
      true false (BackendOutcome.ok [])).released = true := by
  constructor
  · exact (C7_resource_discipline none
      { launchOk := true, gotoOk := true, evalOk := true, tree := typoPage }
      true false (BackendOutcome.ok [])).2 rfl
  · exact (C7_resource_discipline (some (js "https://example.com"))
      { launchOk := true, gotoOk := false, evalOk := true, tree := typoPage }
      true false (BackendOutcome.ok [])).1 rfl
